import Mathlib

set_option maxRecDepth 100000

/-!
Verification of the Sales-assistant repository (api.py, fast_api.py):
a shallow embedding of the decline-template pools, the creative response
handler, the intent classifier, the `chat` orchestration of
`SecureSalesAssistant`, its initialization, and the REST session manager,
together with theorems settling the specification claims.

External collaborators (the Guardrails input/output guards and the
LangChain retrieval/generation chain) are passed to `chat` as function
parameters, mirroring the spec treatment of them as opaque capabilities.
-/

namespace SalesAssistant

/-- The `confidential_info` pool of `DECLINE_RESPONSES` (api.py). -/
def confidentialPool : List String :=
  [ "I appreciate your curiosity, but that information is confidential and outside my area of expertise. However, I'm a refrigerator specialist! Let me help you find the perfect cooling solution for your needs. What capacity are you looking for?"
  , "That's actually not something I have access to - my expertise is specifically in our refrigerator products. But here's what I CAN help you with: finding the ideal refrigerator for your space, budget, and lifestyle. What matters most to you - energy efficiency, capacity, or smart features?"
  , "I'm not authorized to discuss internal company matters, but I'm your go-to person for everything refrigerator-related! Whether you need help comparing models, understanding features, or finding the best fit for your budget, I'm here. What brings you shopping for a refrigerator today?"
  , "That falls outside my scope - I focus exclusively on helping customers find their perfect refrigerator. Think of me as your personal cooling consultant! Tell me about your kitchen space and family size, and I'll suggest some great options."
  , "I can't help with that particular request, but what I CAN do is match you with a refrigerator that'll make your life easier! Are you looking for something compact, family-sized, or perhaps a premium model with all the bells and whistles?" ]

/-- The `pii_detected` pool of `DECLINE_RESPONSES` (api.py). -/
def piiPool : List String :=
  [ "I noticed some sensitive information in your message. For your privacy and security, I can't process requests containing personal details like that. But let's focus on finding you an amazing refrigerator! What's your budget range?"
  , "Hold on - I spotted some personal information that I should skip over for your protection. No worries though! Let's talk about refrigerators instead. Are you upgrading an old unit or buying your first one?"
  , "For security reasons, I need to avoid processing personal information like that. But here's what we CAN discuss: our incredible range of refrigerators from compact to commercial! What size space are we working with?"
  , "I see some sensitive data in your message - let's keep things secure by focusing on what I do best: helping you choose the right refrigerator! Do you prefer traditional models or are you interested in smart features?" ]

/-- The `toxic_language` pool of `DECLINE_RESPONSES` (api.py). -/
def toxicPool : List String :=
  [ "I understand you might be frustrated, and I'm here to help make things better. Let's start fresh - what kind of refrigerator would make your day? I promise to find you some great options!"
  , "I hear your frustration. Let me turn this around for you - finding the right refrigerator can actually be exciting! Tell me what disappointed you before, and I'll make sure we avoid that this time."
  , "I appreciate your honesty, even if emotions are running high. How about we channel that energy into finding you a fantastic refrigerator? What's your dream feature - ice maker, huge capacity, or maybe sleek smart controls?"
  , "Let's keep our conversation positive and productive. I genuinely want to help you find a refrigerator you'll love. What's most important to you - price, features, or brand quality?" ]

/-- The `off_topic` pool of `DECLINE_RESPONSES` (api.py). -/
def offTopicPool : List String :=
  [ "That's an interesting question, but it's a bit outside my refrigerator expertise! I'm laser-focused on helping you find the perfect cooling solution. Speaking of which, have you considered what capacity you need?"
  , "I'm flattered you'd ask, but my specialty is refrigerators through and through! Let me wow you with our product range instead. Are you team side-by-side or team French door?"
  , "While I appreciate the diverse conversation, refrigerators are truly my passion! And I'd love to share that passion with you. What's your current refrigerator situation - time for an upgrade?"
  , "That's outside my wheelhouse, but you know what IS in my wheelhouse? Helping you find a refrigerator that fits your life perfectly! Budget-friendly or premium - what's your vibe?" ]

/-- The `DECLINE_RESPONSES` dict of api.py, as an association list
(Python dicts preserve insertion order). -/
def DECLINE_RESPONSES : List (String × List String) :=
  [ ("confidential_info", confidentialPool)
  , ("pii_detected", piiPool)
  , ("toxic_language", toxicPool)
  , ("off_topic", offTopicPool) ]

/-- The `CONVERSATION_STARTERS` list of api.py. -/
def CONVERSATION_STARTERS : List String :=
  [ "Great question! Let me help you with that."
  , "I'm glad you asked! Here's what I can tell you:"
  , "Excellent choice to explore this! Let me explain:"
  , "Perfect timing - I love talking about this!"
  , "That's a popular question! Here's the scoop:"
  , "I'm excited to help you with this!"
  , "Let me break this down for you:"
  , "Good thinking! Here's what you should know:" ]

/-- Embedding of Python `str.lower` (`query.lower()`, `str(e).lower()`):
lowercase every character. -/
def str_lower (s : String) : String :=
  ⟨s.data.map Char.toLower⟩

/-- Case-sensitive substring test, embedding the Python `in` operator on
strings (`keyword in query_lower`, `"pii" in error_type`). -/
def strContains (s pat : String) : Bool :=
  decide (pat.toList <:+: s.toList)

/-- The Python slice `l[-n:]`: the last `n` elements (all of them when the
list is shorter than `n`). -/
def lastN (n : Nat) (l : List String) : List String :=
  l.drop (l.length - n)

/-- `CreativeResponseHandler` of api.py: the rolling history of decline
strings already emitted. -/
structure CreativeResponseHandler where
  response_history : List String
deriving DecidableEq

/-- `self.max_history = 10` in `CreativeResponseHandler.__init__`. -/
def max_history : Nat := 10

/-- A fresh `CreativeResponseHandler()` (empty history). -/
def CreativeResponseHandler.init : CreativeResponseHandler := ⟨[]⟩

/-- Pool lookup as performed by `get_varied_decline`: an unknown category
falls back to the `off_topic` pool (`if category not in DECLINE_RESPONSES:
category = "off_topic"`), then the dict is indexed.  The dict lookup is
unrolled over the four keys of `DECLINE_RESPONSES`. -/
def poolFor (category : String) : List String :=
  if category = "confidential_info" then confidentialPool
  else if category = "pii_detected" then piiPool
  else if category = "toxic_language" then toxicPool
  else offTopicPool

/-- The candidate list computed inside `get_varied_decline`: the pool
minus the responses used in the last 5 selections
(`available_responses` in api.py), falling back to the full pool when
that comes out empty. -/
def gvd_available (h : CreativeResponseHandler) (category : String) : List String :=
  if ((poolFor category).filter
      (fun resp => !((lastN 5 h.response_history).contains resp))).isEmpty then
    poolFor category
  else
    (poolFor category).filter
      (fun resp => !((lastN 5 h.response_history).contains resp))

/-- `CreativeResponseHandler.get_varied_decline` of api.py.  The call to
`random.choice` is embedded by the explicit `choice` parameter, reduced
modulo the length of the candidate list, so theorems quantify over every
outcome of the random draw. -/
def get_varied_decline (h : CreativeResponseHandler) (category : String)
    (choice : Nat) : String × CreativeResponseHandler :=
  let available := gvd_available h category
  let selected := available.getD (choice % available.length) ""
  let hist₀ := h.response_history ++ [selected]
  let hist := if max_history < hist₀.length then hist₀.drop 1 else hist₀
  (selected, ⟨hist⟩)

/-- `CreativeResponseHandler.get_conversation_starter` of api.py, with the
`random.choice` embedded as an explicit index. -/
def get_conversation_starter (choice : Nat) : String :=
  CONVERSATION_STARTERS.getD (choice % CONVERSATION_STARTERS.length) ""

/-- The `confidential_keywords` list of `_detect_query_intent` (api.py). -/
def confidential_keywords : List String :=
  [ "api key", "password", "secret", "credential", "token"
  , "employee", "salary", "internal", "confidential", "private"
  , "database", "system", "admin", "backend", "server" ]

/-- `SecureSalesAssistant._detect_query_intent` of api.py. -/
def detect_query_intent (query : String) : String :=
  let query_lower := str_lower query
  if confidential_keywords.any (fun keyword => strContains query_lower keyword) then
    "confidential_info"
  else
    "normal"

/-- The generic apologetic message returned by `chat` when the chain call
raises (api.py, the except branch of step 3; the three f-string pieces
concatenated). -/
def fallback_message : String :=
  "I hit a small snag processing that request. Could you rephrase what you're looking for? I'm here to help you find the perfect refrigerator!"

/-- The mutable state of a `SecureSalesAssistant`: the conversation memory
(the `ConversationBufferMemory` transcript, as ordered user/assistant text
pairs) and the creative response handler. -/
structure SecureSalesAssistant where
  memory : List (String × String)
  response_handler : CreativeResponseHandler
deriving DecidableEq

/-- A fresh assistant (empty transcript, fresh handler). -/
def SecureSalesAssistant.init : SecureSalesAssistant :=
  ⟨[], CreativeResponseHandler.init⟩

/-- Result of one `chat` turn: the returned text, the assistant state
after the turn, and the ordered log of collaborator call sites that were
reached (mock call-count instrumentation: `"input_guard"` for
`self.input_guard.validate`, `"chain"` for `self.chain(...)`,
`"output_guard"` for `self.output_guard.validate`). -/
structure ChatResult where
  reply : String
  state : SecureSalesAssistant
  calls : List String
deriving DecidableEq

/-- `SecureSalesAssistant.chat` of api.py.  Collaborators are parameters:
`inputVal` is `input_guard.validate` (error value = exception message),
`genFn` is the `ConversationalRetrievalChain` call receiving the query and
the current transcript, `outputVal` is `output_guard.validate`.
`starterRand` embeds `random.random() < 0.3`; `starterChoice` and
`declineChoice` embed the `random.choice` draws.

The chain owns the `ConversationBufferMemory`: LangChain `Chain.__call__`
runs `memory.save_context(inputs, outputs)` exactly when the chain call
succeeds, so on success the transcript gains the pair
(question, raw answer) before any starter text or output validation is
applied, and an exception inside the chain leaves the memory untouched. -/
def chat (a : SecureSalesAssistant)
    (inputVal : String → Except String String)
    (genFn : String → List (String × String) → Except String String)
    (outputVal : String → Except String String)
    (starterRand : Bool) (starterChoice declineChoice : Nat)
    (user_query : String) : ChatResult :=
  let intent := detect_query_intent user_query
  match inputVal user_query with
  | .error e =>
      let error_type := str_lower e
      if strContains error_type "pii" then
        let r := get_varied_decline a.response_handler "pii_detected" declineChoice
        ⟨r.1, { a with response_handler := r.2 }, ["input_guard"]⟩
      else if strContains error_type "toxic" then
        let r := get_varied_decline a.response_handler "toxic_language" declineChoice
        ⟨r.1, { a with response_handler := r.2 }, ["input_guard"]⟩
      else
        let r := get_varied_decline a.response_handler "off_topic" declineChoice
        ⟨r.1, { a with response_handler := r.2 }, ["input_guard"]⟩
  | .ok safe_query =>
      if intent = "confidential_info" then
        let r := get_varied_decline a.response_handler "confidential_info" declineChoice
        ⟨r.1, { a with response_handler := r.2 }, ["input_guard"]⟩
      else
        match genFn safe_query a.memory with
        | .error _ =>
            ⟨fallback_message, a, ["input_guard", "chain"]⟩
        | .ok answer =>
            let a' := { a with memory := a.memory ++ [(safe_query, answer)] }
            let response :=
              if starterRand then
                get_conversation_starter starterChoice ++ " " ++ answer
              else answer
            match outputVal response with
            | .ok safe_response =>
                ⟨safe_response, a', ["input_guard", "chain", "output_guard"]⟩
            | .error _ =>
                let r := get_varied_decline a'.response_handler "off_topic" declineChoice
                ⟨r.1, { a' with response_handler := r.2 },
                  ["input_guard", "chain", "output_guard"]⟩

/-- `SecureSalesAssistant.clear_memory` of api.py: wipes the transcript and
the decline response history. -/
def clear_memory (a : SecureSalesAssistant) : SecureSalesAssistant :=
  { a with memory := [], response_handler := ⟨[]⟩ }

/-- A Guardrails validator as configured in `setup_guardrails` (api.py);
the numeric toxicity threshold plays no role in any claim and is omitted. -/
inductive Validator
  | detectPII (pii_entities : List String) (on_fail : String)
  | toxicLanguage (validation_method : String) (on_fail : String)
deriving DecidableEq

/-- `setup_guardrails` of api.py: with the hub validators available, both
guards carry a PII and a toxicity validator (block on input, fix on
output); without them, both validator lists stay empty and setup still
completes. -/
def setup_guardrails (hub_validators_available : Bool) :
    List Validator × List Validator :=
  if hub_validators_available then
    ( [ Validator.detectPII ["EMAIL_ADDRESS", "PHONE_NUMBER", "CREDIT_CARD", "SSN"] "exception"
      , Validator.toxicLanguage "sentence" "exception" ]
    , [ Validator.detectPII ["EMAIL_ADDRESS", "PHONE_NUMBER", "CREDIT_CARD", "SSN"] "fix"
      , Validator.toxicLanguage "sentence" "fix" ] )
  else
    ([], [])

/-- `get_api_key_from_env` of api.py.  `os.getenv` is the `env` parameter;
the Python truthiness test `if not api_key` fails both on an unset
variable and on an empty string. -/
def get_api_key_from_env (env : String → Option String) : Except String String :=
  match env "GROQ_API_KEY" with
  | none => .error "GROQ_API_KEY not found in environment variables. Please create a .env file with GROQ_API_KEY=your_api_key"
  | some api_key =>
      if api_key = "" then
        .error "GROQ_API_KEY not found in environment variables. Please create a .env file with GROQ_API_KEY=your_api_key"
      else
        .ok api_key

/-- `initialize_chatbot` of api.py restricted to its decision structure:
resolve the API key (raising when absent), then construct the assistant,
whose `__init__` unconditionally runs `setup_guardrails`.  The result
carries the guard validator lists the assistant ends up with. -/
def initialize_chatbot (env : String → Option String)
    (hub_validators_available : Bool) :
    Except String (List Validator × List Validator) :=
  match get_api_key_from_env env with
  | .error e => .error e
  | .ok _ => .ok (setup_guardrails hub_validators_available)

/-- `SessionManager` of fast_api.py: the `sessions` and `message_counts`
dicts, as insertion-ordered association lists. -/
structure SessionManager where
  sessions : List (String × SecureSalesAssistant)
  message_counts : List (String × Nat)
deriving DecidableEq

/-- Python dict assignment `d[k] = v`: overwrite in place when the key
exists, append otherwise. -/
def dictSet (l : List (String × Nat)) (k : String) (v : Nat) : List (String × Nat) :=
  if l.any (fun p => p.1 = k) then
    l.map (fun p => if p.1 = k then (k, v) else p)
  else
    l ++ [(k, v)]

/-- `SessionManager.clear_session` of fast_api.py: when the id is present,
clear the assistant memory, delete the session entry, zero the message
count and return True; otherwise return False with nothing changed. -/
def SessionManager.clear_session (m : SessionManager) (session_id : String) :
    Bool × SessionManager :=
  match m.sessions.lookup session_id with
  | some bot =>
      let _cleared := clear_memory bot
      ( true
      , { sessions := m.sessions.filter (fun p => p.1 ≠ session_id)
        , message_counts := dictSet m.message_counts session_id 0 } )
  | none => (false, m)

/-- The `DELETE /sessions/\x7bsession_id\x7d` endpoint of fast_api.py:
200 with a success body when `clear_session` returns True, HTTP 404
otherwise.  Only the status code is modelled. -/
def clear_session_endpoint (m : SessionManager) (session_id : String) :
    Nat × SessionManager :=
  if (m.clear_session session_id).1 then (200, (m.clear_session session_id).2)
  else (404, (m.clear_session session_id).2)

/-! ### Concrete scenarios used by witnesses and counterexamples -/

/-- A confidential-intent turn on which the input guard raises a PII
exception. -/
def c1_run : ChatResult :=
  chat SecureSalesAssistant.init
    (fun _ => .error "Validation failed: detected PII entities")
    (fun _ _ => .ok "a fine answer") (fun s => .ok s)
    false 0 0 "what is your admin password"

/-- A confidential-intent turn on which the input guard passes. -/
def c1_ok_run : ChatResult :=
  chat SecureSalesAssistant.init (fun s => .ok s)
    (fun _ _ => .ok "a fine answer") (fun s => .ok s)
    false 0 0 "what is your admin password"

/-- A normal turn whose generated answer fails output validation. -/
def c2_fail_run : ChatResult :=
  chat SecureSalesAssistant.init (fun s => .ok s)
    (fun _ _ => .ok "Call me at 555-0100")
    (fun _ => .error "Validation failed: detected PII entities")
    false 0 0 "hello, i want a fridge"

/-- A normal turn that is generated and delivered successfully. -/
def c2_ok_run : ChatResult :=
  chat SecureSalesAssistant.init (fun s => .ok s)
    (fun _ _ => .ok "Hi there") (fun s => .ok s)
    false 0 0 "hello"

/-- A turn on which the input guard raises a PII exception. -/
def c4_run : ChatResult :=
  chat SecureSalesAssistant.init
    (fun _ => .error "Validation failed: detected PII entities")
    (fun _ _ => .ok "a fine answer") (fun s => .ok s)
    false 0 0 "hi"

/-- A normal turn on which the chain raises. -/
def c7_run : ChatResult :=
  chat SecureSalesAssistant.init (fun s => .ok s)
    (fun _ _ => .error "Request timed out.") (fun s => .ok s)
    false 0 0 "hello"

/-- Six consecutive confidential_info selections in one session, with the
random draws picking the first still-available template each time and the
last draw picking index 4 of the full pool. -/
def c6_r1 : String × CreativeResponseHandler :=
  get_varied_decline ⟨[]⟩ "confidential_info" 0

def c6_r2 : String × CreativeResponseHandler :=
  get_varied_decline c6_r1.2 "confidential_info" 0

def c6_r3 : String × CreativeResponseHandler :=
  get_varied_decline c6_r2.2 "confidential_info" 0

def c6_r4 : String × CreativeResponseHandler :=
  get_varied_decline c6_r3.2 "confidential_info" 0

def c6_r5 : String × CreativeResponseHandler :=
  get_varied_decline c6_r4.2 "confidential_info" 0

def c6_r6 : String × CreativeResponseHandler :=
  get_varied_decline c6_r5.2 "confidential_info" 4

/-- A session manager holding one session, used against a missing id. -/
def c10_mgr : SessionManager :=
  ⟨[("alice", SecureSalesAssistant.init)], [("alice", 3)]⟩

/-! ### Helper lemmas -/

/-- `poolFor` agrees with an association-list lookup in `DECLINE_RESPONSES`
(with the `off_topic` fallback for unknown categories). -/
theorem poolFor_eq_lookup (c : String) :
    poolFor c = (DECLINE_RESPONSES.lookup c).getD offTopicPool := by
  unfold poolFor DECLINE_RESPONSES
  by_cases h1 : c = "confidential_info"
  · subst h1; rfl
  by_cases h2 : c = "pii_detected"
  · subst h2; rfl
  by_cases h3 : c = "toxic_language"
  · subst h3; rfl
  by_cases h4 : c = "off_topic"
  · subst h4; rfl
  · have e1 : (c == "confidential_info") = false := beq_eq_false_iff_ne.mpr h1
    have e2 : (c == "pii_detected") = false := beq_eq_false_iff_ne.mpr h2
    have e3 : (c == "toxic_language") = false := beq_eq_false_iff_ne.mpr h3
    have e4 : (c == "off_topic") = false := beq_eq_false_iff_ne.mpr h4
    simp [List.lookup, e1, e2, e3, e4, h1, h2, h3, h4]

/-- Every category resolves to a non-empty pool. -/
theorem poolFor_ne_nil (c : String) : poolFor c ≠ [] := by
  unfold poolFor
  split_ifs <;> decide

/-- The candidate list of `get_varied_decline` is never empty. -/
theorem gvd_available_ne_nil (h : CreativeResponseHandler) (c : String) :
    gvd_available h c ≠ [] := by
  unfold gvd_available
  split
  · exact poolFor_ne_nil c
  · rename_i hne
    intro hcon
    rw [hcon] at hne
    simp at hne

/-- The candidate list is a sublist of the category's pool. -/
theorem gvd_available_subset (h : CreativeResponseHandler) (c : String) :
    gvd_available h c ⊆ poolFor c := by
  unfold gvd_available
  split
  · exact fun _ hx => hx
  · exact List.filter_subset' _

/-- Indexing a non-empty list modulo its length stays inside the list. -/
theorem getD_mod_mem (l : List String) (hl : l ≠ []) (n : Nat) (d : String) :
    l.getD (n % l.length) d ∈ l := by
  have hpos : 0 < l.length := List.length_pos.mpr hl
  have hlt : n % l.length < l.length := Nat.mod_lt _ hpos
  rw [List.getD_eq_getElem l d hlt]
  exact List.getElem_mem hlt

/-- The selected decline is drawn from the candidate list. -/
theorem gvd_fst_mem_available (h : CreativeResponseHandler) (c : String) (n : Nat) :
    (get_varied_decline h c n).1 ∈ gvd_available h c :=
  getD_mod_mem _ (gvd_available_ne_nil h c) _ _

/-- The selected decline is always an entry of the category's pool. -/
theorem gvd_fst_mem_pool (h : CreativeResponseHandler) (c : String) (n : Nat) :
    (get_varied_decline h c n).1 ∈ poolFor c :=
  gvd_available_subset h c (gvd_fst_mem_available h c n)

/-- An element stays in the tail of an append whenever at most the prior
elements are dropped. -/
theorem mem_drop_append (ys : List String) (s : String) (k : Nat)
    (hk : k ≤ ys.length) : s ∈ (ys ++ [s]).drop k := by
  induction ys generalizing k with
  | nil =>
      have hk0 : k = 0 := Nat.le_zero.mp (by simpa using hk)
      subst hk0
      simp
  | cons y ys ih =>
      cases k with
      | zero => simp
      | succ k =>
          simp only [List.cons_append, List.drop_succ_cons]
          exact ih k (by simpa using hk)

/-- The last element of a list is always inside its `lastN 5` window. -/
theorem mem_lastN_append (ys : List String) (s : String) :
    s ∈ lastN 5 (ys ++ [s]) := by
  unfold lastN
  apply mem_drop_append
  have hl : (ys ++ [s]).length = ys.length + 1 := by simp
  omega

/-- The history after a selection always has the selected string as its
final entry. -/
theorem gvd_snd_shape (h : CreativeResponseHandler) (c : String) (n : Nat) :
    ∃ ys, (get_varied_decline h c n).2.response_history =
      ys ++ [(get_varied_decline h c n).1] := by
  unfold get_varied_decline
  set sel := (gvd_available h c).getD (n % (gvd_available h c).length) "" with hsel
  dsimp only
  split
  · rename_i hlen
    rcases hrh : h.response_history with _ | ⟨x, xs⟩
    · rw [hrh] at hlen
      simp [max_history] at hlen
    · exact ⟨xs, by simp⟩
  · exact ⟨h.response_history, rfl⟩

/-- The selection just made is inside the last-5 window of the updated
history. -/
theorem gvd_fst_mem_lastN (h : CreativeResponseHandler) (c : String) (n : Nat) :
    (get_varied_decline h c n).1 ∈
      lastN 5 (get_varied_decline h c n).2.response_history := by
  obtain ⟨ys, hys⟩ := gvd_snd_shape h c n
  rw [hys]
  exact mem_lastN_append ys _

/-- When the filtered candidate list is non-empty, the selection comes
from it and therefore avoids the last-5 window. -/
theorem gvd_fst_not_recent (h : CreativeResponseHandler) (c : String) (n : Nat)
    (hne : (poolFor c).filter
      (fun t => !((lastN 5 h.response_history).contains t)) ≠ []) :
    (get_varied_decline h c n).1 ∈ (poolFor c).filter
      (fun t => !((lastN 5 h.response_history).contains t)) ∧
    (get_varied_decline h c n).1 ∉ lastN 5 h.response_history := by
  have hmem := gvd_fst_mem_available h c n
  unfold gvd_available at hmem
  rw [if_neg (by simpa [List.isEmpty_iff] using hne)] at hmem
  refine ⟨hmem, ?_⟩
  have h2 := (List.mem_filter.mp hmem).2
  simp only [Bool.not_eq_true'] at h2
  intro hcontra
  have : (lastN 5 h.response_history).contains (get_varied_decline h c n).1 = true := by
    simpa [List.contains, List.elem_iff] using hcontra
  rw [this] at h2
  cases h2

/-- The updated history is the append of the selection, truncated to the
most recent `max_history` entries (given the length invariant held
before). -/
theorem gvd_snd_eq_lastN (h : CreativeResponseHandler) (c : String) (n : Nat)
    (hlen : h.response_history.length ≤ max_history) :
    (get_varied_decline h c n).2.response_history =
      lastN max_history
        (h.response_history ++ [(get_varied_decline h c n).1]) := by
  unfold get_varied_decline
  dsimp only
  set sel := (gvd_available h c).getD (n % (gvd_available h c).length) "" with hsel
  unfold lastN
  have hl : (h.response_history ++ [sel]).length = h.response_history.length + 1 := by
    simp
  split
  · rename_i hgt
    congr 1
    simp only [max_history] at hlen hgt ⊢
    omega
  · rename_i hle
    have h0 : (h.response_history ++ [sel]).length - max_history = 0 := by
      simp only [max_history] at hlen hle ⊢
      omega
    rw [h0, List.drop_zero]

/-- One `get_varied_decline` call preserves the history length bound. -/
theorem gvd_snd_length_le (h : CreativeResponseHandler) (c : String) (n : Nat)
    (hlen : h.response_history.length ≤ max_history) :
    (get_varied_decline h c n).2.response_history.length ≤ max_history := by
  unfold get_varied_decline
  dsimp only
  set sel := (gvd_available h c).getD (n % (gvd_available h c).length) "" with hsel
  have hl : (h.response_history ++ [sel]).length = h.response_history.length + 1 := by
    simp
  split
  · rename_i hgt
    simp only [List.length_drop]
    simp only [max_history] at hlen hgt ⊢
    omega
  · rename_i hle
    simp only [max_history] at hlen hle ⊢
    omega

/-- With an empty history the candidate list is the whole pool. -/
theorem gvd_available_empty_hist (c : String) :
    gvd_available ⟨[]⟩ c = poolFor c := by
  unfold gvd_available
  have hfe : (poolFor c).filter
      (fun t => !((lastN 5 (⟨[]⟩ : CreativeResponseHandler).response_history).contains t))
      = poolFor c := by
    apply List.filter_eq_self.mpr
    intro a _
    rfl
  rw [hfe]
  split <;> rfl

/-- With an empty history every pool entry is reachable by some outcome of
the random draw. -/
theorem gvd_reaches_every_entry (c t : String) (ht : t ∈ poolFor c) :
    ∃ n, (get_varied_decline ⟨[]⟩ c n).1 = t := by
  refine ⟨(poolFor c).indexOf t, ?_⟩
  unfold get_varied_decline
  dsimp only
  rw [gvd_available_empty_hist]
  have hlt : (poolFor c).indexOf t < (poolFor c).length :=
    List.indexOf_lt_length.mpr ht
  rw [Nat.mod_eq_of_lt hlt, List.getD_eq_getElem _ _ hlt]
  exact List.getElem_indexOf hlt

/-! ### Claim theorems -/

/-- C5: for every category and history state, `get_varied_decline` returns
an element of the category's pool (of the `off_topic` pool when the
category is unknown to `DECLINE_RESPONSES`); the element avoids the last 5
history entries whenever the pool minus those entries is non-empty, and is
otherwise drawn from the full pool; the choice is appended to the history,
which is truncated to the most recent 10 entries by evicting the
oldest. -/
theorem C5_get_varied_decline_spec (h : CreativeResponseHandler)
    (cat : String) (choice : Nat) :
    (get_varied_decline h cat choice).1 ∈ poolFor cat
    ∧ (DECLINE_RESPONSES.lookup cat = none →
        (get_varied_decline h cat choice).1 ∈ offTopicPool)
    ∧ ((poolFor cat).filter
          (fun t => !((lastN 5 h.response_history).contains t)) ≠ [] →
        (get_varied_decline h cat choice).1 ∉ lastN 5 h.response_history)
    ∧ ((poolFor cat).filter
          (fun t => !((lastN 5 h.response_history).contains t)) = [] →
        (get_varied_decline h cat choice).1 ∈ poolFor cat)
    ∧ (h.response_history.length ≤ max_history →
        (get_varied_decline h cat choice).2.response_history =
          lastN max_history
            (h.response_history ++ [(get_varied_decline h cat choice).1])) := by
  refine ⟨gvd_fst_mem_pool h cat choice, ?_, ?_, ?_, ?_⟩
  · intro hnone
    have hm := gvd_fst_mem_pool h cat choice
    rwa [poolFor_eq_lookup, hnone] at hm
  · intro hne
    exact (gvd_fst_not_recent h cat choice hne).2
  · intro _
    exact gvd_fst_mem_pool h cat choice
  · exact gvd_snd_eq_lastN h cat choice

/-- Witness for C5 at concrete inputs: a selection from the toxic pool
with an empty history avoids the window and appends to the history; an
unknown category draws from the off_topic pool; a history covering the
whole pool forces the full-pool fallback. -/
theorem C5_witness :
    (get_varied_decline ⟨[]⟩ "toxic_language" 1).1 ∈ poolFor "toxic_language"
    ∧ (get_varied_decline ⟨[]⟩ "toxic_language" 1).1 ∉
        lastN 5 (⟨[]⟩ : CreativeResponseHandler).response_history
    ∧ (get_varied_decline ⟨[]⟩ "toxic_language" 1).2.response_history =
        lastN max_history
          ((⟨[]⟩ : CreativeResponseHandler).response_history ++
            [(get_varied_decline ⟨[]⟩ "toxic_language" 1).1])
    ∧ (get_varied_decline ⟨[]⟩ "unknown_category" 0).1 ∈ offTopicPool
    ∧ (get_varied_decline ⟨toxicPool⟩ "toxic_language" 2).1 ∈
        poolFor "toxic_language" :=
  ⟨(C5_get_varied_decline_spec ⟨[]⟩ "toxic_language" 1).1,
   (C5_get_varied_decline_spec ⟨[]⟩ "toxic_language" 1).2.2.1 (by decide),
   (C5_get_varied_decline_spec ⟨[]⟩ "toxic_language" 1).2.2.2.2 (by decide),
   (C5_get_varied_decline_spec ⟨[]⟩ "unknown_category" 0).2.1 (by decide),
   (C5_get_varied_decline_spec ⟨toxicPool⟩ "toxic_language" 2).2.2.2.1 (by decide)⟩

/-- C6 (amended): two consecutive decline selections are textually
distinct whenever the later selection's candidate subset (pool minus the
last-5 window) is non-empty.  When the candidate subset is empty — which 6
consecutive confidential_info selections can reach, since that pool has
exactly 5 entries — the selection falls back to the full pool and may
repeat its predecessor. -/
theorem C6_consecutive_declines_differ (h : CreativeResponseHandler)
    (c c' : String) (n₁ n₂ : Nat)
    (hne : (poolFor c').filter
      (fun t => !((lastN 5 (get_varied_decline h c n₁).2.response_history).contains t))
      ≠ []) :
    (get_varied_decline (get_varied_decline h c n₁).2 c' n₂).1 ≠
      (get_varied_decline h c n₁).1 := by
  intro heq
  have hprev := gvd_fst_mem_lastN h c n₁
  have hnot := (gvd_fst_not_recent (get_varied_decline h c n₁).2 c' n₂ hne).2
  rw [heq] at hnot
  exact hnot hprev

/-- Witness for C6: the second of two confidential_info selections from a
fresh handler differs from the first. -/
theorem C6_witness :
    (get_varied_decline (get_varied_decline ⟨[]⟩ "confidential_info" 0).2
        "confidential_info" 0).1 ≠
      (get_varied_decline ⟨[]⟩ "confidential_info" 0).1 :=
  C6_consecutive_declines_differ ⟨[]⟩ "confidential_info" "confidential_info"
    0 0 (by decide)

/-- Counterexample to C6 as stated: among 6 consecutive confidential_info
selections from a fresh handler there is an outcome of the random draws
(first-available picks, then index 4) under which the 5th and 6th replies
are textually identical, even though the pool has exactly 5 entries. -/
theorem C6_counterexample :
    c6_r6.1 = c6_r5.1 ∧ confidentialPool.length = 5 := by
  decide

/-- C8: the response history never exceeds 10 entries: the bound holds for
a fresh handler, is preserved by every `get_varied_decline` call, and
clearing empties the history. -/
theorem C8_history_bounded :
    CreativeResponseHandler.init.response_history.length ≤ max_history
    ∧ (∀ (h : CreativeResponseHandler) (c : String) (n : Nat),
        h.response_history.length ≤ max_history →
        (get_varied_decline h c n).2.response_history.length ≤ max_history)
    ∧ (∀ a : SecureSalesAssistant,
        (clear_memory a).response_handler.response_history.length ≤ max_history) :=
  ⟨by decide,
   fun h c n hl => gvd_snd_length_le h c n hl,
   fun _ => by simp [clear_memory, max_history]⟩

/-- Witness for C8 at a concrete handler state. -/
theorem C8_witness :
    (get_varied_decline ⟨["x"]⟩ "off_topic" 3).2.response_history.length ≤
      max_history :=
  C8_history_bounded.2.1 ⟨["x"]⟩ "off_topic" 3 (by decide)

/-- C9: after `clear_memory` the transcript is empty and the decline
history is empty, so every template of every category — including any
avoided by the last-5 window just before the clear — is selectable again
by some outcome of the random draw. -/
theorem C9_clear_memory_resets (a : SecureSalesAssistant) :
    (clear_memory a).memory = []
    ∧ (clear_memory a).response_handler.response_history = []
    ∧ (∀ cat t, t ∈ poolFor cat →
        ∃ n, (get_varied_decline (clear_memory a).response_handler cat n).1 = t) := by
  refine ⟨rfl, rfl, ?_⟩
  intro cat t ht
  exact gvd_reaches_every_entry cat t ht

/-- Witness for C9: clearing an assistant whose history covered the whole
confidential pool empties both stores, and the template at index 4 —
inside the last-5 window just before the clear — is selectable again. -/
theorem C9_witness :
    (clear_memory ⟨[("q", "r")], ⟨confidentialPool⟩⟩).memory = []
    ∧ (∃ n, (get_varied_decline
        (clear_memory ⟨[("q", "r")], ⟨confidentialPool⟩⟩).response_handler
        "confidential_info" n).1 = confidentialPool.getD 4 "") :=
  ⟨(C9_clear_memory_resets ⟨[("q", "r")], ⟨confidentialPool⟩⟩).1,
   (C9_clear_memory_resets ⟨[("q", "r")], ⟨confidentialPool⟩⟩).2.2
     "confidential_info" (confidentialPool.getD 4 "") (by decide)⟩

/-- C1 (amended): on an input classified `confidential_info` the
input-side safety validator IS invoked first (step 1 of `chat` precedes
the intent short-circuit); when it passes, the reply is a
`confidential_info` template and no call reaches the chain or the output
guard.  When the validator fails, its decline category takes precedence
over the confidential decline. -/
theorem C1_confidential_short_circuit (a : SecureSalesAssistant)
    (inputVal : String → Except String String)
    (genFn : String → List (String × String) → Except String String)
    (outputVal : String → Except String String)
    (sr : Bool) (sc dc : Nat) (q s : String)
    (hintent : detect_query_intent q = "confidential_info")
    (hok : inputVal q = .ok s) :
    (chat a inputVal genFn outputVal sr sc dc q).reply ∈ confidentialPool
    ∧ (chat a inputVal genFn outputVal sr sc dc q).calls = ["input_guard"] := by
  constructor
  · simp only [chat, hok, hintent, if_pos]
    exact gvd_fst_mem_pool a.response_handler "confidential_info" dc
  · simp only [chat, hok, hintent, if_pos]

/-- Witness for C1 (amended): a concrete confidential query with a passing
validator yields a confidential template with only the input guard
invoked. -/
theorem C1_witness :
    c1_ok_run.reply ∈ confidentialPool ∧ c1_ok_run.calls = ["input_guard"] :=
  C1_confidential_short_circuit SecureSalesAssistant.init (fun s => .ok s)
    (fun _ _ => .ok "a fine answer") (fun s => .ok s) false 0 0
    "what is your admin password" "what is your admin password"
    (by decide) rfl

/-- Counterexample to C1 as stated: on the confidential query
"what is your admin password" the input guard is invoked (it appears in
the call log), and when it raises a PII exception the reply is a
pii_detected template, not a confidential_info one. -/
theorem C1_counterexample :
    detect_query_intent "what is your admin password" = "confidential_info"
    ∧ "input_guard" ∈ c1_run.calls
    ∧ c1_run.reply ∉ confidentialPool := by
  decide

/-- C2 (amended): the transcript is unchanged when the turn ends in an
intent decline, an input-validation decline, or a generation failure; it
IS updated whenever the chain call succeeds — including turns that end in
an output-violation decline — and the appended entries are the validated
user query together with the raw generated answer (not the
starter-prepended or redacted delivered text). -/
theorem C2_transcript_update (a : SecureSalesAssistant)
    (inputVal : String → Except String String)
    (genFn : String → List (String × String) → Except String String)
    (outputVal : String → Except String String)
    (sr : Bool) (sc dc : Nat) (q : String) :
    (∀ e, inputVal q = .error e →
        (chat a inputVal genFn outputVal sr sc dc q).state.memory = a.memory)
    ∧ (∀ s, inputVal q = .ok s → detect_query_intent q = "confidential_info" →
        (chat a inputVal genFn outputVal sr sc dc q).state.memory = a.memory)
    ∧ (∀ s e, inputVal q = .ok s → detect_query_intent q ≠ "confidential_info" →
        genFn s a.memory = .error e →
        (chat a inputVal genFn outputVal sr sc dc q).state.memory = a.memory)
    ∧ (∀ s ans, inputVal q = .ok s → detect_query_intent q ≠ "confidential_info" →
        genFn s a.memory = .ok ans →
        (chat a inputVal genFn outputVal sr sc dc q).state.memory =
          a.memory ++ [(s, ans)]) := by
  refine ⟨?_, ?_, ?_, ?_⟩
  · intro e hv
    simp only [chat, hv]
    split_ifs <;> rfl
  · intro s hv hint
    simp only [chat, hv, hint, if_pos]
  · intro s e hv hint hgen
    simp only [chat, hv]
    rw [if_neg hint]
    simp only [hgen]
  · intro s ans hv hint hgen
    simp only [chat, hv]
    rw [if_neg hint]
    simp only [hgen]
    split <;> rfl

/-- Witness for C2 (amended): a delivered turn appends the query and the
raw answer to the transcript. -/
theorem C2_witness :
    c2_ok_run.state.memory = [("hello", "Hi there")] :=
  (C2_transcript_update SecureSalesAssistant.init (fun s => .ok s)
      (fun _ _ => .ok "Hi there") (fun s => .ok s) false 0 0 "hello").2.2.2
    "hello" "Hi there" rfl (by decide) rfl

/-- Counterexample to C2 as stated: a turn whose generated answer fails
output validation ends in an off_topic decline, yet the transcript has
been updated with the raw answer. -/
theorem C2_counterexample :
    c2_fail_run.reply ∈ offTopicPool
    ∧ c2_fail_run.state.memory =
        [("hello, i want a fridge", "Call me at 555-0100")] := by
  decide

/-- C4: when input validation fails, the reply pool follows the exception
text of the detector that fired: a message naming pii yields a
pii_detected template, one naming toxic yields a toxic_language template,
and any other failure yields an off_topic template. -/
theorem C4_input_validation_categories (a : SecureSalesAssistant)
    (inputVal : String → Except String String)
    (genFn : String → List (String × String) → Except String String)
    (outputVal : String → Except String String)
    (sr : Bool) (sc dc : Nat) (q e : String)
    (hv : inputVal q = .error e) :
    (strContains (str_lower e) "pii" = true →
      (chat a inputVal genFn outputVal sr sc dc q).reply ∈ piiPool)
    ∧ (strContains (str_lower e) "pii" = false →
        strContains (str_lower e) "toxic" = true →
      (chat a inputVal genFn outputVal sr sc dc q).reply ∈ toxicPool)
    ∧ (strContains (str_lower e) "pii" = false →
        strContains (str_lower e) "toxic" = false →
      (chat a inputVal genFn outputVal sr sc dc q).reply ∈ offTopicPool) := by
  refine ⟨?_, ?_, ?_⟩
  · intro hpii
    simp only [chat, hv, hpii, if_pos]
    exact gvd_fst_mem_pool a.response_handler "pii_detected" dc
  · intro hpii htox
    simp only [chat, hv, hpii, htox, if_pos, Bool.false_eq_true, if_false]
    exact gvd_fst_mem_pool a.response_handler "toxic_language" dc
  · intro hpii htox
    simp only [chat, hv, hpii, htox, Bool.false_eq_true, if_false]
    exact gvd_fst_mem_pool a.response_handler "off_topic" dc

/-- Witness for C4: a PII exception from the input guard yields a
pii_detected template. -/
theorem C4_witness :
    c4_run.reply ∈ piiPool :=
  (C4_input_validation_categories SecureSalesAssistant.init
      (fun _ => .error "Validation failed: detected PII entities")
      (fun _ _ => .ok "a fine answer") (fun s => .ok s) false 0 0 "hi"
      "Validation failed: detected PII entities" rfl).1 (by decide)

/-- C7: any exception from the chain is caught: `chat` returns the fixed
apologetic fallback message, which is non-empty and is not an entry of any
decline pool; the raw exception never escapes (the embedding of `chat` is
a total function). -/
theorem C7_generation_failure_fallback (a : SecureSalesAssistant)
    (inputVal : String → Except String String)
    (genFn : String → List (String × String) → Except String String)
    (outputVal : String → Except String String)
    (sr : Bool) (sc dc : Nat) (q s err : String)
    (hok : inputVal q = .ok s)
    (hint : detect_query_intent q ≠ "confidential_info")
    (hgen : genFn s a.memory = .error err) :
    (chat a inputVal genFn outputVal sr sc dc q).reply = fallback_message
    ∧ fallback_message ≠ ""
    ∧ fallback_message ∉ confidentialPool
    ∧ fallback_message ∉ piiPool
    ∧ fallback_message ∉ toxicPool
    ∧ fallback_message ∉ offTopicPool := by
  refine ⟨?_, by decide, by decide, by decide, by decide, by decide⟩
  simp only [chat, hok]
  rw [if_neg hint]
  simp only [hgen]

/-- Witness for C7: a timed-out chain call yields the fallback message. -/
theorem C7_witness :
    c7_run.reply = fallback_message :=
  (C7_generation_failure_fallback SecureSalesAssistant.init (fun s => .ok s)
      (fun _ _ => .error "Request timed out.") (fun s => .ok s) false 0 0
      "hello" "hello" "Request timed out." rfl (by decide) rfl).1

/-- C3 (amended): a missing or empty GROQ_API_KEY makes initialization
fail with an error, but missing hub validators do NOT: `setup_guardrails`
completes with empty validator lists, and with a valid key the assistant
initializes successfully in that degraded state. -/
theorem C3_startup_failure_behavior (hub : Bool) :
    (∀ env : String → Option String, env "GROQ_API_KEY" = none →
        ∃ e, initialize_chatbot env hub = .error e)
    ∧ (∀ env : String → Option String, env "GROQ_API_KEY" = some "" →
        ∃ e, initialize_chatbot env hub = .error e)
    ∧ (∀ (env : String → Option String) (k : String),
        env "GROQ_API_KEY" = some k → k ≠ "" →
        initialize_chatbot env false = .ok ([], [])) := by
  refine ⟨?_, ?_, ?_⟩
  · intro env henv
    refine ⟨"GROQ_API_KEY not found in environment variables. Please create a .env file with GROQ_API_KEY=your_api_key", ?_⟩
    unfold initialize_chatbot get_api_key_from_env
    rw [henv]
  · intro env henv
    refine ⟨"GROQ_API_KEY not found in environment variables. Please create a .env file with GROQ_API_KEY=your_api_key", ?_⟩
    unfold initialize_chatbot get_api_key_from_env
    rw [henv]
    rfl
  · intro env k henv hk
    unfold initialize_chatbot get_api_key_from_env
    rw [henv]
    dsimp only
    rw [if_neg hk]
    rfl

/-- Witness for C3 (amended) at concrete environments. -/
theorem C3_witness :
    (∃ e, initialize_chatbot (fun _ => none) true = .error e)
    ∧ (∃ e, initialize_chatbot (fun _ => some "") true = .error e)
    ∧ initialize_chatbot (fun _ => some "gsk_test") false = .ok ([], []) :=
  ⟨(C3_startup_failure_behavior true).1 (fun _ => none) rfl,
   (C3_startup_failure_behavior true).2.1 (fun _ => some "") rfl,
   (C3_startup_failure_behavior true).2.2 (fun _ => some "gsk_test") "gsk_test"
     rfl (by decide)⟩

/-- Counterexample to C3 as stated: with the hub validators unavailable
and a valid API key, initialization completes successfully with both
guard validator lists empty — a degraded state, not a startup error. -/
theorem C3_counterexample :
    initialize_chatbot (fun _ => some "gsk_live_key") false = .ok ([], [])
    ∧ setup_guardrails false = ([], []) := by
  constructor <;> rfl

/-- C10: clearing a session id that is not in the session store returns
False, the endpoint answers HTTP 404, and the whole manager — the session
map, every assistant state and every message count — is unchanged. -/
theorem C10_clear_missing_session (m : SessionManager) (sid : String)
    (hnone : m.sessions.lookup sid = none) :
    m.clear_session sid = (false, m)
    ∧ clear_session_endpoint m sid = (404, m)
    ∧ (∀ s, (m.clear_session sid).2.sessions.lookup s = m.sessions.lookup s)
    ∧ (∀ s, (m.clear_session sid).2.message_counts.lookup s =
        m.message_counts.lookup s) := by
  have h1 : m.clear_session sid = (false, m) := by
    unfold SessionManager.clear_session
    rw [hnone]
  refine ⟨h1, ?_, ?_, ?_⟩
  · unfold clear_session_endpoint
    rw [h1]
    rfl
  · intro s
    rw [h1]
  · intro s
    rw [h1]

/-- Witness for C10: clearing the absent id "bob" in a one-session
manager. -/
theorem C10_witness :
    c10_mgr.clear_session "bob" = (false, c10_mgr)
    ∧ clear_session_endpoint c10_mgr "bob" = (404, c10_mgr) :=
  ⟨(C10_clear_missing_session c10_mgr "bob" (by decide)).1,
   (C10_clear_missing_session c10_mgr "bob" (by decide)).2.1⟩

end SalesAssistant
